import Mathlib

/-!
Verification of the TalktoDocs retrieval subsystem.

This file gives a shallow embedding, in Lean 4, of the core logic of the
repository: the character-window chunker (core/chunker.py), the FAISS-backed
vector store with persistence (core/vector_store.py), the retriever
(core/retriever.py), the answer composer (core/rag_pipeline.py) and the
ingestion pipeline (services/ingestion_service.py), together with theorems
settling the specification's testable properties.

Modelling conventions:
- Python strings are `List Char`; slicing `text[a:b]` is `(text.drop a).take (b - a)`.
- 32-bit float vectors are modelled with exact `Int` entries; similarity
  scores and thresholds are `Int` as well.  Floating-point rounding is not
  modelled, so "equal within floating-point tolerance" becomes exact equality.
- The FAISS `IndexFlatIP` index is modelled as its dimension together with
  the ordered list of stored vectors; its `search` is exact inner-product
  top-k selection (the spec's section 4.2 semantics: no approximation),
  returning `k` slots padded with the sentinel index `-1`, ties broken by
  insertion order (FAISS leaves tie order unspecified).
- Python exceptions are `Except` errors; the error constructors carry the
  specification's taxonomy names (section 7) for what the Python source
  raises as `ValueError` or a FAISS assertion.
- The filesystem seen by `save`/`load`/`clear` is a `Disk` record with one
  optional slot per on-disk artifact of the configured index name.
-/

/-- The Chunk dataclass of core/chunker.py: one contiguous span of cleaned
text from a source document, with stable identifier and character offsets. -/
structure Chunk where
  chunk_id : String
  text : String
  source_file : String
  start_char : Nat
  end_char : Nat
deriving Repr, DecidableEq, Inhabited

/-- Python str.strip: drop leading and trailing whitespace characters. -/
def pyStrip (s : List Char) : List Char :=
  ((s.dropWhile Char.isWhitespace).reverse.dropWhile Char.isWhitespace).reverse

/-- The specification's ConfigurationError (section 7): invalid chunker
configuration.  In core/chunker.py this is raised as a ValueError with the
message "chunk_overlap must be smaller than chunk_size". -/
inductive ConfigurationError
  | overlapNotSmaller
deriving Repr, DecidableEq

/-- TextChunker.__init__ of core/chunker.py: rejects `overlap >= chunk_size`,
otherwise records the two configuration fields. -/
def TextChunker.init (chunk_size overlap : Int) :
    Except ConfigurationError (Int × Int) :=
  if overlap ≥ chunk_size then .error .overlapNotSmaller
  else .ok (chunk_size, overlap)

/-- The loop of TextChunker.chunk_document: `for start in range(0, len(text),
step)` with `step = chunk_size - overlap`.  Each iteration takes the window
`text[start:end]` with `end = min(start + chunk_size, len(text))`, strips it,
skips it when empty (without the end-of-text test, as the Python `continue`
does), otherwise emits a chunk and breaks once `end == len(text)`.  The
constructor invariant `overlap < chunk_size` makes the stride positive, which
is what terminates the Python loop. -/
def chunkFrom (chunk_size overlap : Nat) (hov : overlap < chunk_size)
    (text : List Char) (src : String) (start index : Nat) : List Chunk :=
  if hlt : start < text.length then
    let stop := min (start + chunk_size) text.length
    let window := pyStrip ((text.drop start).take (stop - start))
    if window = [] then
      chunkFrom chunk_size overlap hov text src (start + (chunk_size - overlap)) index
    else
      let c : Chunk :=
        { chunk_id := src ++ "-" ++ toString index
          text := window.asString
          source_file := src
          start_char := start
          end_char := stop }
      if stop = text.length then [c]
      else c :: chunkFrom chunk_size overlap hov text src
        (start + (chunk_size - overlap)) (index + 1)
  else []
termination_by text.length - start
decreasing_by
  all_goals omega

/-- TextChunker.chunk_document of core/chunker.py: split text into
overlapping windows starting from position 0 with ordinal 0. -/
def chunk_document (chunk_size overlap : Nat) (hov : overlap < chunk_size)
    (text : List Char) (src : String) : List Chunk :=
  chunkFrom chunk_size overlap hov text src 0 0

/-- C6: TextChunker construction fails with ConfigurationError if and only if
`overlap >= chunk_size`; equal values fail, strictly smaller values succeed
and record the configuration. -/
theorem C6_chunker_construction (chunk_size overlap : Int) :
    (chunk_size ≤ overlap →
      TextChunker.init chunk_size overlap = .error .overlapNotSmaller) ∧
    (overlap < chunk_size →
      TextChunker.init chunk_size overlap = .ok (chunk_size, overlap)) := by
  unfold TextChunker.init
  constructor
  · intro h
    rw [if_pos h]
  · intro h
    rw [if_neg (by omega)]

/-- C6 witness: construction with overlap equal to chunk size (700, 700)
fails, and the documented default configuration (700, 120) succeeds. -/
theorem C6_chunker_construction_witness :
    TextChunker.init 700 700 = .error .overlapNotSmaller ∧
    TextChunker.init 700 120 = .ok (700, 120) :=
  ⟨(C6_chunker_construction 700 700).1 (by norm_num),
   (C6_chunker_construction 700 120).2 (by norm_num)⟩

/-- C2: chunking a 2,000-character text that contains no all-whitespace
window with `chunk_size=700, overlap=120` emits exactly 4 chunks with start
positions 0, 580, 1160, 1740, the last window clipped to end position 2000,
and chunk ids doc-0 through doc-3. -/
theorem C2_chunk_scenario (text : List Char) (hlen : text.length = 2000)
    (h0 : pyStrip (text.take 700) ≠ [])
    (h1 : pyStrip ((text.drop 580).take 700) ≠ [])
    (h2 : pyStrip ((text.drop 1160).take 700) ≠ [])
    (h3 : pyStrip ((text.drop 1740).take 260) ≠ []) :
    (chunk_document 700 120 (by omega) text "doc").map
        (fun c => (c.chunk_id, c.start_char, c.end_char)) =
      [("doc-0", 0, 700), ("doc-1", 580, 1280),
       ("doc-2", 1160, 1860), ("doc-3", 1740, 2000)] := by
  unfold chunk_document
  rw [chunkFrom]
  simp only [hlen]
  norm_num [h0]
  rw [chunkFrom]
  simp only [hlen]
  norm_num [h1]
  rw [chunkFrom]
  simp only [hlen]
  norm_num [h2]
  rw [chunkFrom]
  simp only [hlen]
  norm_num [h3]
  refine ⟨rfl, rfl, rfl, rfl⟩

/-- Dropping whitespace from a run of letters is the identity. -/
theorem dropWhile_ws_replicate_a (n : Nat) :
    List.dropWhile Char.isWhitespace (List.replicate n 'a') = List.replicate n 'a' := by
  cases n with
  | zero => rfl
  | succ m => simp [List.replicate_succ, List.dropWhile_cons]

/-- Stripping a run of letters is the identity. -/
theorem pyStrip_replicate_a (n : Nat) :
    pyStrip (List.replicate n 'a') = List.replicate n 'a' := by
  unfold pyStrip
  rw [dropWhile_ws_replicate_a, List.reverse_replicate, dropWhile_ws_replicate_a,
    List.reverse_replicate]

/-- C2 witness: the scenario evaluated on the concrete 2,000-character text
made of 2,000 letters, which has no all-whitespace window. -/
theorem C2_chunk_scenario_witness :
    (chunk_document 700 120 (by omega) (List.replicate 2000 'a') "doc").map
        (fun c => (c.chunk_id, c.start_char, c.end_char)) =
      [("doc-0", 0, 700), ("doc-1", 580, 1280),
       ("doc-2", 1160, 1860), ("doc-3", 1740, 2000)] :=
  C2_chunk_scenario (List.replicate 2000 'a') (by rw [List.length_replicate])
    (by norm_num [List.take_replicate, pyStrip_replicate_a])
    (by norm_num [List.drop_replicate, List.take_replicate, pyStrip_replicate_a])
    (by norm_num [List.drop_replicate, List.take_replicate, pyStrip_replicate_a])
    (by norm_num [List.drop_replicate, List.take_replicate, pyStrip_replicate_a])

/-- A two-dimensional numpy float array as passed to FaissVectorStore.add:
its rows are the embedding vectors and `width` is `shape[1]`, the common
length of the rows (numpy arrays are rectangular by construction). -/
structure Batch where
  width : Nat
  rows : List (List Int)
deriving Repr, DecidableEq

/-- In-memory state of a FaissVectorStore (core/vector_store.py): an
optional FAISS IndexFlatIP, modelled as its fixed dimension together with
the ordered list of stored vectors, and the parallel metadata list. -/
structure FaissVectorStore where
  index : Option (Nat × List (List Int))
  metadata : List Chunk
deriving Repr, DecidableEq

/-- The specification's error taxonomy (section 7) for FaissVectorStore.add:
ShapeMismatchError is the ValueError raised when chunk and vector counts
differ; DimensionMismatchError is the failure FAISS raises inside
`index.add` when the incoming width differs from the index dimension. -/
inductive StoreError
  | shapeMismatch
  | dimensionMismatch
deriving Repr, DecidableEq

/-- A freshly constructed FaissVectorStore: no index, no metadata. -/
def FaissVectorStore.empty : FaissVectorStore :=
  { index := none, metadata := [] }

/-- FaissVectorStore.add: raise on a chunk/vector count mismatch before any
mutation; create the IndexFlatIP with the incoming width on first use; let
FAISS reject a width that differs from the fixed dimension (before any
vector or metadata is appended); otherwise append vectors and metadata. -/
def FaissVectorStore.add (s : FaissVectorStore) (embeddings : Batch)
    (chunks : List Chunk) : Except StoreError FaissVectorStore :=
  if chunks.length ≠ embeddings.rows.length then
    .error .shapeMismatch
  else
    match s.index with
    | none =>
        .ok { index := some (embeddings.width, embeddings.rows)
              metadata := s.metadata ++ chunks }
    | some (d, vs) =>
        if embeddings.width ≠ d then .error .dimensionMismatch
        else
          .ok { index := some (d, vs ++ embeddings.rows)
                metadata := s.metadata ++ chunks }

/-- Run FaissVectorStore.add with Python exception semantics: a raise leaves
the object state unchanged (in the source, both raises happen before the
vector append and the metadata extend). -/
def FaissVectorStore.addRun (s : FaissVectorStore) (embeddings : Batch)
    (chunks : List Chunk) : FaissVectorStore × Option StoreError :=
  match s.add embeddings chunks with
  | .ok s1 => (s1, none)
  | .error e => (s, some e)

/-- Number of vectors held by the index, FAISS `ntotal` (0 when the index
was never created). -/
def FaissVectorStore.ntotal (s : FaissVectorStore) : Nat :=
  match s.index with
  | none => 0
  | some (_, vs) => vs.length

/-- Inner product of two vectors. -/
def dot (xs ys : List Int) : Int :=
  (List.zipWith (fun a b => a * b) xs ys).sum

/-- Every stored vector paired with its position: position `i` scored by the
inner product of the query with vector `i`. -/
def scoredEntries (vs : List (List Int)) (q : List Int) : List (Int × Int) :=
  (List.range vs.length).map (fun i => (Int.ofNat i, dot q (vs.getD i [])))

/-- Exact top-k inner-product search of FAISS IndexFlatIP on a one-row query
batch: all stored vectors ranked by descending score, the first `k` kept,
and the `k` result slots padded with the sentinel position `-1` when fewer
than `k` vectors are stored.  Tie order among equal scores is fixed as
insertion order (FAISS leaves it unspecified). -/
def faissSearch (vs : List (List Int)) (q : List Int) (k : Nat) : List (Int × Int) :=
  let ranked := List.insertionSort (fun a b : Int × Int => b.2 ≤ a.2) (scoredEntries vs q)
  ranked.take k ++ List.replicate (k - vs.length) (-1, 0)

/-- FaissVectorStore.search: empty or uninitialized index gives an empty
result; otherwise decode the FAISS result row, skipping sentinel `-1`
positions and pairing each remaining position with its stored metadata. -/
def FaissVectorStore.search (s : FaissVectorStore) (q : List Int) (k : Nat) :
    List (Chunk × Int) :=
  match s.index with
  | none => []
  | some (_, vs) =>
    if vs.length = 0 then []
    else
      ((faissSearch vs q k).filter (fun p => p.1 != -1)).map
        (fun p => (s.metadata.getD p.1.toNat default, p.2))

/-- The two on-disk artifacts of the configured index name: the binary FAISS
index file and the JSON metadata file, each present or absent. -/
structure Disk where
  indexFile : Option (Nat × List (List Int))
  metaFile : Option (List Chunk)
deriving Repr, DecidableEq

/-- A directory with neither artifact present. -/
def Disk.empty : Disk :=
  { indexFile := none, metaFile := none }

/-- FaissVectorStore.save: no-op when the index was never created, otherwise
write both artifacts. -/
def FaissVectorStore.save (s : FaissVectorStore) (disk : Disk) : Disk :=
  match s.index with
  | none => disk
  | some iv => { indexFile := some iv, metaFile := some s.metadata }

/-- FaissVectorStore.load: when either artifact is missing return false and
leave the state as it was; otherwise restore index and metadata and return
true. -/
def FaissVectorStore.load (s : FaissVectorStore) (disk : Disk) :
    FaissVectorStore × Bool :=
  match disk.indexFile, disk.metaFile with
  | some iv, some md => ({ index := some iv, metadata := md }, true)
  | some _, none => (s, false)
  | none, some _ => (s, false)
  | none, none => (s, false)

/-- FaissVectorStore.clear: drop the in-memory index and metadata and unlink
whichever artifacts exist. -/
def FaissVectorStore.clear (_ : FaissVectorStore) (_ : Disk) :
    FaissVectorStore × Disk :=
  (FaissVectorStore.empty, Disk.empty)

/-- Index states reachable from a fresh store by a sequence of (successful)
add calls. -/
inductive Reachable : FaissVectorStore → Prop
  | empty : Reachable FaissVectorStore.empty
  | add {s s1 : FaissVectorStore} {e : Batch} {c : List Chunk} :
      Reachable s → s.add e c = .ok s1 → Reachable s1

/-- C4: add fails with ShapeMismatchError exactly when the chunk count and
vector count differ, leaving the store unchanged; the first successful add
fixes the index dimension to the width of the incoming vectors; and any
later add whose vectors have a different width fails with
DimensionMismatchError, leaving the store unchanged. -/
theorem C4_add_error_contract (s : FaissVectorStore) (e : Batch)
    (c : List Chunk) :
    (c.length ≠ e.rows.length →
      s.addRun e c = (s, some .shapeMismatch)) ∧
    (s.index = none → c.length = e.rows.length →
      s.addRun e c =
        ({ index := some (e.width, e.rows), metadata := s.metadata ++ c },
          none)) ∧
    (∀ d vs, s.index = some (d, vs) → c.length = e.rows.length →
      e.width ≠ d → s.addRun e c = (s, some .dimensionMismatch)) := by
  refine ⟨fun hne => ?_, fun hidx heq => ?_, fun d vs hidx heq hw => ?_⟩
  · unfold FaissVectorStore.addRun FaissVectorStore.add
    rw [if_pos hne]
  · unfold FaissVectorStore.addRun FaissVectorStore.add
    rw [if_neg (by omega), hidx]
  · unfold FaissVectorStore.addRun FaissVectorStore.add
    rw [if_neg (by omega), hidx]
    simp only [if_pos hw]

/-- C4 witness: a concrete store of dimension 2 with one vector; a
mismatched chunk count raises ShapeMismatchError, a first add on a fresh
store fixes the dimension to 3, and a width-1 batch against the dimension-2
store raises DimensionMismatchError. -/
theorem C4_add_error_contract_witness :
    FaissVectorStore.addRun
        { index := some (2, [[1, 0]]), metadata := [⟨"d-0", "t", "d", 0, 1⟩] }
        { width := 2, rows := [[0, 1]] } [] =
      ({ index := some (2, [[1, 0]]), metadata := [⟨"d-0", "t", "d", 0, 1⟩] },
        some .shapeMismatch) ∧
    FaissVectorStore.addRun FaissVectorStore.empty
        { width := 3, rows := [[1, 2, 3]] } [⟨"d-0", "t", "d", 0, 1⟩] =
      ({ index := some (3, [[1, 2, 3]]), metadata := [⟨"d-0", "t", "d", 0, 1⟩] },
        none) ∧
    FaissVectorStore.addRun
        { index := some (2, [[1, 0]]), metadata := [⟨"d-0", "t", "d", 0, 1⟩] }
        { width := 1, rows := [[7]] } [⟨"d-1", "u", "d", 0, 1⟩] =
      ({ index := some (2, [[1, 0]]), metadata := [⟨"d-0", "t", "d", 0, 1⟩] },
        some .dimensionMismatch) :=
  ⟨(C4_add_error_contract _ _ _).1 (by decide),
   by
    have h := (C4_add_error_contract FaissVectorStore.empty
      { width := 3, rows := [[1, 2, 3]] } [⟨"d-0", "t", "d", 0, 1⟩]).2.1
      rfl (by decide)
    simpa [FaissVectorStore.empty] using h,
   (C4_add_error_contract _ _ _).2.2 2 [[1, 0]] rfl (by decide) (by decide)⟩

/-- C7: clear is idempotent: from any state it leaves the in-memory index
and metadata empty and both artifacts absent, and a second clear (or a clear
when nothing exists) succeeds and leaves the same empty state. -/
theorem C7_clear_idempotent (s : FaissVectorStore) (disk : Disk) :
    s.clear disk = (FaissVectorStore.empty, Disk.empty) ∧
    FaissVectorStore.clear (s.clear disk).1 (s.clear disk).2 = s.clear disk ∧
    (s.clear disk).1.metadata = [] ∧
    (s.clear disk).1.ntotal = 0 ∧
    (s.clear disk).2.indexFile = none ∧
    (s.clear disk).2.metaFile = none :=
  ⟨rfl, rfl, rfl, rfl, rfl, rfl⟩

/-- C1: for every index state reachable by a sequence of add calls, saving
and then loading on a fresh store with the same index name reproduces an
index whose search results for any query vector and top-k equal the search
results of the pre-save index (same metadata in the same order, equal
scores). -/
theorem C1_save_load_roundtrip (s : FaissVectorStore) (_hreach : Reachable s)
    (q : List Int) (k : Nat) :
    ((FaissVectorStore.empty).load (s.save Disk.empty)).1.search q k =
      s.search q k := by
  cases s with
  | mk idx md =>
    cases idx with
    | none => rfl
    | some iv => cases iv with | mk d vs => rfl

/-- C1 witness: a store of two 2-dimensional vectors reached by one add call
from a fresh store, searched with query (1, 0) and top-k 5 before and after
the save/load round trip. -/
theorem C1_save_load_roundtrip_witness :
    ((FaissVectorStore.empty).load
        (FaissVectorStore.save
          { index := some (2, [[1, 0], [0, 1]])
            metadata := [⟨"d-0", "t", "d", 0, 1⟩, ⟨"d-1", "u", "d", 1, 2⟩] }
          Disk.empty)).1.search [1, 0] 5 =
      FaissVectorStore.search
        { index := some (2, [[1, 0], [0, 1]])
          metadata := [⟨"d-0", "t", "d", 0, 1⟩, ⟨"d-1", "u", "d", 1, 2⟩] }
        [1, 0] 5 :=
  C1_save_load_roundtrip _
    (@Reachable.add FaissVectorStore.empty
      { index := some (2, [[1, 0], [0, 1]])
        metadata := [⟨"d-0", "t", "d", 0, 1⟩, ⟨"d-1", "u", "d", 1, 2⟩] }
      { width := 2, rows := [[1, 0], [0, 1]] }
      [⟨"d-0", "t", "d", 0, 1⟩, ⟨"d-1", "u", "d", 1, 2⟩]
      Reachable.empty rfl) [1, 0] 5

instance : IsTotal (Int × Int) (fun a b => b.2 ≤ a.2) :=
  ⟨fun a b => le_total b.2 a.2⟩

instance : IsTrans (Int × Int) (fun a b => b.2 ≤ a.2) :=
  ⟨fun _ _ _ h1 h2 => le_trans h2 h1⟩

/-- Every scored entry is a position below the vector count paired with the
inner product of the query against the vector at that position. -/
theorem mem_scoredEntries {vs : List (List Int)} {q : List Int} {x : Int × Int}
    (hx : x ∈ scoredEntries vs q) :
    ∃ i, i < vs.length ∧ x = (Int.ofNat i, dot q (vs.getD i [])) := by
  unfold scoredEntries at hx
  obtain ⟨i, hi, rfl⟩ := List.mem_map.1 hx
  exact ⟨i, List.mem_range.1 hi, rfl⟩

/-- Decoding the FAISS result row: filtering out the sentinel positions
keeps exactly the first `k` ranked entries and drops all the padding. -/
theorem faissSearch_filter (vs : List (List Int)) (q : List Int) (k : Nat) :
    (faissSearch vs q k).filter (fun p => p.1 != -1) =
      (List.insertionSort (fun a b : Int × Int => b.2 ≤ a.2)
        (scoredEntries vs q)).take k := by
  unfold faissSearch
  rw [List.filter_append]
  have h1 : (List.replicate (k - vs.length) ((-1 : Int), (0 : Int))).filter
      (fun p : Int × Int => p.1 != -1) = [] := by
    rw [List.filter_eq_nil_iff]
    intro a ha
    obtain ⟨-, rfl⟩ := List.mem_replicate.1 ha
    simp
  have h2 : ((List.insertionSort (fun a b : Int × Int => b.2 ≤ a.2)
      (scoredEntries vs q)).take k).filter (fun p : Int × Int => p.1 != -1) =
      (List.insertionSort (fun a b : Int × Int => b.2 ≤ a.2)
        (scoredEntries vs q)).take k := by
    rw [List.filter_eq_self]
    intro a ha
    obtain ⟨i, -, rfl⟩ := mem_scoredEntries
      ((List.mem_insertionSort _).1 (List.Sublist.mem ha (List.take_sublist _ _)))
    simp
  rw [h1, h2, List.append_nil]

/-- C5: search on an empty or uninitialized index returns an empty list;
otherwise it returns exactly `min top_k ntotal` entries (at most top-k, no
padding) in descending score order, each pairing the stored metadata at a
valid position with the inner-product score of the vector at that same
position, with every sentinel position filtered out. -/
theorem C5_search_contract (s : FaissVectorStore) (q : List Int) (k : Nat) :
    (s.index = none → s.search q k = []) ∧
    (s.ntotal = 0 → s.search q k = []) ∧
    (s.search q k).length = min k s.ntotal ∧
    List.Sorted (fun a b : Chunk × Int => b.2 ≤ a.2) (s.search q k) ∧
    (∀ p ∈ s.search q k, ∃ i, i < s.ntotal ∧
      p.1 = s.metadata.getD i default ∧
      ∃ dvs, s.index = some dvs ∧ p.2 = dot q (dvs.2.getD i [])) := by
  obtain ⟨idx, md⟩ := s
  cases idx with
  | none =>
      refine ⟨fun _ => rfl, fun _ => rfl, by simp [FaissVectorStore.search,
        FaissVectorStore.ntotal], by simp [FaissVectorStore.search], ?_⟩
      intro p hp
      simp [FaissVectorStore.search] at hp
  | some dvs =>
      obtain ⟨d, vs⟩ := dvs
      by_cases hvs : vs.length = 0
      · refine ⟨fun h => by simp at h, fun _ => ?_, ?_, ?_, ?_⟩
        · simp [FaissVectorStore.search, hvs]
        · simp [FaissVectorStore.search, FaissVectorStore.ntotal, hvs]
        · simp [FaissVectorStore.search, hvs]
        · intro p hp
          simp [FaissVectorStore.search, hvs] at hp
      · have hsearch :
            FaissVectorStore.search ⟨some (d, vs), md⟩ q k =
              ((List.insertionSort (fun a b : Int × Int => b.2 ≤ a.2)
                (scoredEntries vs q)).take k).map
                (fun p => (md.getD p.1.toNat default, p.2)) := by
          have hstep : FaissVectorStore.search ⟨some (d, vs), md⟩ q k =
              if vs.length = 0 then []
              else ((faissSearch vs q k).filter (fun p => p.1 != -1)).map
                (fun p => (md.getD p.1.toNat default, p.2)) := rfl
          rw [hstep, if_neg hvs, faissSearch_filter]
        have hnt : FaissVectorStore.ntotal ⟨some (d, vs), md⟩ = vs.length := rfl
        refine ⟨fun h => by simp at h, fun h => by rw [hnt] at h; omega, ?_, ?_, ?_⟩
        · rw [hsearch, hnt, List.length_map, List.length_take,
            List.length_insertionSort]
          unfold scoredEntries
          rw [List.length_map, List.length_range]
        · rw [hsearch]
          have hsorted := List.sorted_insertionSort
            (fun a b : Int × Int => b.2 ≤ a.2) (scoredEntries vs q)
          have htake : List.Sorted (fun a b : Int × Int => b.2 ≤ a.2)
              ((List.insertionSort (fun a b : Int × Int => b.2 ≤ a.2)
                (scoredEntries vs q)).take k) :=
            List.Pairwise.sublist (List.take_sublist _ _) hsorted
          exact List.pairwise_map.2 htake
        · intro p hp
          rw [hsearch] at hp
          obtain ⟨x, hxmem, rfl⟩ := List.mem_map.1 hp
          obtain ⟨i, hi, rfl⟩ := mem_scoredEntries
            ((List.mem_insertionSort _).1
              (List.Sublist.mem hxmem (List.take_sublist _ _)))
          refine ⟨i, by rw [hnt]; exact hi, by simp, (d, vs), rfl, rfl⟩

/-- C5 witness: a dimension-2 store holding three vectors and three metadata
records, searched with query (2, 1) and top-k 5; and the empty store,
searched likewise. -/
theorem C5_search_contract_witness :
    (FaissVectorStore.empty.search [2, 1] 5 = []) ∧
    (FaissVectorStore.search
        { index := some (2, [[1, 0], [0, 1], [1, 1]])
          metadata := [⟨"d-0", "t", "d", 0, 1⟩, ⟨"d-1", "u", "d", 1, 2⟩,
            ⟨"d-2", "v", "d", 2, 3⟩] } [2, 1] 5).length =
      min 5 (FaissVectorStore.ntotal
        { index := some (2, [[1, 0], [0, 1], [1, 1]])
          metadata := [⟨"d-0", "t", "d", 0, 1⟩, ⟨"d-1", "u", "d", 1, 2⟩,
            ⟨"d-2", "v", "d", 2, 3⟩] }) :=
  ⟨(C5_search_contract FaissVectorStore.empty [2, 1] 5).1 rfl,
   (C5_search_contract _ [2, 1] 5).2.2.1⟩

/-- The RetrievedChunk dataclass of core/retriever.py: retrieved text and
source paired with a similarity score. -/
structure RetrievedChunk where
  text : String
  source_file : String
  score : Int
deriving Repr, DecidableEq

/-- The two retrieval settings of config.py used by Retriever.retrieve:
`retriever_top_k` (default 5) and `retriever_score_threshold` (default 0.30,
an integer under the exact-score model). -/
structure RetrieverConfig where
  retriever_top_k : Nat
  retriever_score_threshold : Int
deriving Repr, DecidableEq

/-- The Python fallback `top_k or settings.retriever_top_k` of
Retriever.retrieve: None and 0 are both falsy, so either one selects the
configured default. -/
def resolveTopK (top_k : Option Nat) (dflt : Nat) : Nat :=
  match top_k with
  | none => dflt
  | some v => if v = 0 then dflt else v

instance : IsTotal RetrievedChunk (fun a b => b.score ≤ a.score) :=
  ⟨fun a b => le_total b.score a.score⟩

instance : IsTrans RetrievedChunk (fun a b => b.score ≤ a.score) :=
  ⟨fun _ _ _ h1 h2 => le_trans h2 h1⟩

/-- Retriever.retrieve of core/retriever.py: embed the query (the embedding
capability is an external collaborator, passed in as a function), search the
vector store with the resolved top-k, keep only results whose score clears
the configured threshold, and sort descending by score (Python sorted with
reverse=True is a stable sort, hence insertion sort here). -/
def Retriever.retrieve (cfg : RetrieverConfig) (embed : String → List Int)
    (store : FaissVectorStore) (query : String) (top_k : Option Nat) :
    List RetrievedChunk :=
  let k := resolveTopK top_k cfg.retriever_top_k
  let raw := store.search (embed query) k
  let filtered := (raw.filter
      (fun p => decide (cfg.retriever_score_threshold ≤ p.2))).map
    (fun p => { text := p.1.text, source_file := p.1.source_file, score := p.2 })
  List.insertionSort (fun a b : RetrievedChunk => b.score ≤ a.score) filtered

/-- C3 (amended): retrieve never returns an item whose score is below the
configured threshold, every raw search result whose score is greater than or
equal to the threshold (equality included) is kept, the returned items are
sorted in non-increasing score order, and when nothing clears the threshold
the result is an empty sequence rather than an error.  Strictness of the
descending order fails in general: see the counterexample. -/
theorem C3_retrieve_threshold_sorted (cfg : RetrieverConfig)
    (embed : String → List Int) (store : FaissVectorStore) (query : String)
    (top_k : Option Nat) :
    (∀ r ∈ Retriever.retrieve cfg embed store query top_k,
      cfg.retriever_score_threshold ≤ r.score) ∧
    (∀ p ∈ store.search (embed query) (resolveTopK top_k cfg.retriever_top_k),
      cfg.retriever_score_threshold ≤ p.2 →
      ({ text := p.1.text, source_file := p.1.source_file, score := p.2 } :
        RetrievedChunk) ∈ Retriever.retrieve cfg embed store query top_k) ∧
    List.Sorted (fun a b : RetrievedChunk => b.score ≤ a.score)
      (Retriever.retrieve cfg embed store query top_k) ∧
    ((∀ p ∈ store.search (embed query) (resolveTopK top_k cfg.retriever_top_k),
        p.2 < cfg.retriever_score_threshold) →
      Retriever.retrieve cfg embed store query top_k = []) := by
  have hret : Retriever.retrieve cfg embed store query top_k =
      List.insertionSort (fun a b : RetrievedChunk => b.score ≤ a.score)
        (((store.search (embed query)
            (resolveTopK top_k cfg.retriever_top_k)).filter
            (fun p => decide (cfg.retriever_score_threshold ≤ p.2))).map
          (fun p =>
            { text := p.1.text, source_file := p.1.source_file, score := p.2 })) :=
    rfl
  refine ⟨?_, ?_, ?_, ?_⟩
  · intro r hr
    rw [hret] at hr
    obtain ⟨p, hp, rfl⟩ :=
      List.mem_map.1 ((List.mem_insertionSort _).1 hr)
    exact of_decide_eq_true (List.mem_filter.1 hp).2
  · intro p hp hle
    rw [hret]
    exact (List.mem_insertionSort _).2
      (List.mem_map.2 ⟨p, List.mem_filter.2 ⟨hp, decide_eq_true hle⟩, rfl⟩)
  · exact List.sorted_insertionSort _ _
  · intro hall
    have hfil : (store.search (embed query)
        (resolveTopK top_k cfg.retriever_top_k)).filter
        (fun p => decide (cfg.retriever_score_threshold ≤ p.2)) = [] := by
      rw [List.filter_eq_nil_iff]
      intro p hp
      simpa using (hall p hp).not_le
    rw [hret, hfil]
    rfl

/-- C3 witness: a one-vector store whose single result scores exactly the
threshold 1, so it is kept; and the same store under threshold 2, where
nothing clears the threshold and the result is empty. -/
theorem C3_retrieve_threshold_sorted_witness :
    (∀ r ∈ Retriever.retrieve ⟨5, 1⟩ (fun _ => [1])
        { index := some (1, [[1]]), metadata := [⟨"d-0", "t", "d", 0, 1⟩] }
        "q" none, (1 : Int) ≤ r.score) ∧
    (⟨"t", "d", 1⟩ : RetrievedChunk) ∈ Retriever.retrieve ⟨5, 1⟩
      (fun _ => [1])
      { index := some (1, [[1]]), metadata := [⟨"d-0", "t", "d", 0, 1⟩] }
      "q" none ∧
    List.Sorted (fun a b : RetrievedChunk => b.score ≤ a.score)
      (Retriever.retrieve ⟨5, 1⟩ (fun _ => [1])
        { index := some (1, [[1]]), metadata := [⟨"d-0", "t", "d", 0, 1⟩] }
        "q" none) ∧
    Retriever.retrieve ⟨5, 2⟩ (fun _ => [1])
      { index := some (1, [[1]]), metadata := [⟨"d-0", "t", "d", 0, 1⟩] }
      "q" none = [] :=
  ⟨(C3_retrieve_threshold_sorted ⟨5, 1⟩ (fun _ => [1])
      { index := some (1, [[1]]), metadata := [⟨"d-0", "t", "d", 0, 1⟩] }
      "q" none).1,
   (C3_retrieve_threshold_sorted ⟨5, 1⟩ (fun _ => [1])
      { index := some (1, [[1]]), metadata := [⟨"d-0", "t", "d", 0, 1⟩] }
      "q" none).2.1 (⟨"d-0", "t", "d", 0, 1⟩, 1) (by decide) (by decide),
   (C3_retrieve_threshold_sorted ⟨5, 1⟩ (fun _ => [1])
      { index := some (1, [[1]]), metadata := [⟨"d-0", "t", "d", 0, 1⟩] }
      "q" none).2.2.1,
   (C3_retrieve_threshold_sorted ⟨5, 2⟩ (fun _ => [1])
      { index := some (1, [[1]]), metadata := [⟨"d-0", "t", "d", 0, 1⟩] }
      "q" none).2.2.2 (by decide)⟩

/-- C3 counterexample to strictness: two stored vectors identical to the
query give two results with equal score 1, so the retrieval output is not
strictly descending by score. -/
theorem C3_strict_descending_counterexample :
    ¬ List.Pairwise (fun a b : RetrievedChunk => b.score < a.score)
      (Retriever.retrieve ⟨5, 0⟩ (fun _ => [1])
        { index := some (1, [[1], [1]])
          metadata := [⟨"d-0", "t", "d", 0, 1⟩, ⟨"d-1", "u", "d", 1, 2⟩] }
        "q" none) := by
  decide

/-- C10: a retrieve call with top-k 0 is treated as unspecified by the
Python `or` fallback: the search runs with the configured default top-k, so
the call behaves exactly like one with no top-k argument, and on a concrete
three-vector store with default top-k 2 it returns 2 results rather than
none. -/
theorem C10_topk_zero_fallback (cfg : RetrieverConfig)
    (embed : String → List Int) (store : FaissVectorStore) (query : String) :
    Retriever.retrieve cfg embed store query (some 0) =
      Retriever.retrieve cfg embed store query none ∧
    resolveTopK (some 0) cfg.retriever_top_k = cfg.retriever_top_k ∧
    (Retriever.retrieve ⟨2, 0⟩ (fun _ => [1])
        { index := some (1, [[1], [2], [3]])
          metadata := [⟨"d-0", "t", "d", 0, 1⟩, ⟨"d-1", "u", "d", 1, 2⟩,
            ⟨"d-2", "v", "d", 2, 3⟩] } "q" (some 0)).length = 2 := by
  refine ⟨rfl, rfl, by decide⟩

/-- One citation record of RAGPipeline.answer: rank, source file, and the
score rounded to four decimal places (exact under the integer score model,
so the rounding is the identity here). -/
structure Citation where
  rank : Nat
  source : String
  score : Int
deriving Repr, DecidableEq

/-- The fixed insufficient-information message returned by
RAGPipeline.answer when retrieval comes back empty. -/
def insufficientMsg : String :=
  "I could not find sufficiently relevant information in the indexed documents."

/-- One numbered context block of RAGPipeline.answer (the source formats the
relevance as a 3-decimal float; under the integer score model it is rendered
with toString). -/
def contextPart (idx : Nat) (item : RetrievedChunk) : String :=
  "[" ++ toString idx ++ "] Source: " ++ item.source_file ++
    " | Relevance: " ++ toString item.score ++ "\n" ++ item.text

/-- The grounding prompt assembled by RAGPipeline.answer. -/
def ragPrompt (question context : String) : String :=
  "Use the context below to answer the question. " ++
    "Only state information that appears in the context. " ++
    "If the context is insufficient, say so explicitly.\n\n" ++
    "Question: " ++ question ++ "\n\n" ++
    "Context:\n" ++ context ++ "\n\n" ++
    "Answer with a concise explanation and include references in [n] format."

/-- RAGPipeline.answer of core/rag_pipeline.py: retrieve for the question;
when nothing comes back return the fixed message and no citations without
calling the generation capability; otherwise build the numbered context and
citation list (enumerate from 1) and return the generated answer.  The
retrieval and generation collaborators are passed in as functions. -/
def RAGPipeline.answer (retrieve : String → List RetrievedChunk)
    (generate : String → String) (question : String) :
    String × List Citation :=
  let retrieved := retrieve question
  if retrieved.isEmpty then
    (insufficientMsg, [])
  else
    let enumerated := List.enumFrom 1 retrieved
    let context := String.intercalate "\n\n"
      (enumerated.map (fun p => contextPart p.1 p.2))
    let citations := enumerated.map
      (fun p => { rank := p.1, source := p.2.source_file, score := p.2.score })
    (generate (ragPrompt question context), citations)

/-- C9: when retrieval returns an empty sequence, answer composition returns
the fixed insufficient-information message with an empty citation list, and
the result does not depend on the generation capability (it is never
invoked). -/
theorem C9_empty_retrieval_grounding (retrieve : String → List RetrievedChunk)
    (genA genB : String → String) (question : String)
    (h : retrieve question = []) :
    RAGPipeline.answer retrieve genA question = (insufficientMsg, []) ∧
    RAGPipeline.answer retrieve genA question =
      RAGPipeline.answer retrieve genB question := by
  unfold RAGPipeline.answer
  rw [h]
  exact ⟨rfl, rfl⟩

/-- C9 witness: a retriever that returns nothing, with two different
generation capabilities. -/
theorem C9_empty_retrieval_grounding_witness :
    RAGPipeline.answer (fun _ => []) (fun _ => "A") "q" =
      (insufficientMsg, []) ∧
    RAGPipeline.answer (fun _ => []) (fun _ => "A") "q" =
      RAGPipeline.answer (fun _ => []) (fun _ => "B") "q" :=
  C9_empty_retrieval_grounding (fun _ => []) (fun _ => "A") (fun _ => "B")
    "q" rfl

/-- The zero-width and byte-order-mark characters removed by
TextCleaner.clean: the regex class u200b through u200f plus ufeff. -/
def isZeroWidth (c : Char) : Bool :=
  (0x200b ≤ c.toNat && c.toNat ≤ 0x200f) || c.toNat == 0xfeff

/-- Flush a pending run of newlines as the regex substitution of three or
more consecutive newlines by exactly two (TextCleaner.clean). -/
def emitNewlines (n : Nat) : List Char :=
  if 3 ≤ n then ['\n', '\n'] else List.replicate n '\n'

/-- Scan for maximal newline runs, counting the pending run length. -/
def collapseNewlinesAux : Nat → List Char → List Char
  | pending, [] => emitNewlines pending
  | pending, c :: rest =>
    if c = '\n' then collapseNewlinesAux (pending + 1) rest
    else emitNewlines pending ++ (c :: collapseNewlinesAux 0 rest)

/-- The substitution of every run of three or more newlines by two, as the
regex step of TextCleaner.clean. -/
def collapseNewlines (l : List Char) : List Char :=
  collapseNewlinesAux 0 l

/-- Scan replacing each maximal whitespace run by one space; the flag says
whether the previous character belonged to a whitespace run. -/
def collapseWhitespaceAux : Bool → List Char → List Char
  | _, [] => []
  | prevWs, c :: rest =>
    if c.isWhitespace then
      if prevWs then collapseWhitespaceAux true rest
      else ' ' :: collapseWhitespaceAux true rest
    else c :: collapseWhitespaceAux false rest

/-- normalize_whitespace of utils/helpers.py: replace every whitespace run
by a single space, then strip. -/
def normalize_whitespace (text : List Char) : List Char :=
  pyStrip (collapseWhitespaceAux false text)

/-- TextCleaner.clean of core/cleaner.py: replace NUL by a space, delete
zero-width characters, collapse runs of three or more newlines to two, then
normalize whitespace. -/
def cleanText (text : List Char) : List Char :=
  normalize_whitespace (collapseNewlines
    (((text.map (fun c => if c = '\x00' then ' ' else c)).filter
      (fun c => !isZeroWidth c))))

/-- Error taxonomy of IngestionService.ingest_path: the specification's
EmptyDocumentError (raised as a ValueError in the source when chunking
yields no chunks); a failure of the vector store add call propagates. -/
inductive IngestError
  | emptyDocument
  | storeFailure (e : StoreError)
deriving Repr, DecidableEq

/-- The IngestionResult dataclass of services/ingestion_service.py. -/
structure IngestionResult where
  file_name : String
  chunks_indexed : Nat
deriving Repr, DecidableEq

/-- IngestionService.ingest_path of services/ingestion_service.py: clean the
text extracted by the loader (text extraction is an external capability, so
the raw text is a parameter), chunk it, fail with EmptyDocumentError when no
chunks were produced, otherwise embed the chunk texts (external capability,
passed as a function), add to the vector store and persist it. -/
def IngestionService.ingest_path (chunk_size overlap : Nat)
    (hov : overlap < chunk_size) (embed : List String → Batch)
    (rawText : List Char) (fileName : String) (store : FaissVectorStore)
    (disk : Disk) :
    Except IngestError (FaissVectorStore × Disk × IngestionResult) :=
  let cleaned := cleanText rawText
  let chunks := chunk_document chunk_size overlap hov cleaned fileName
  if chunks.isEmpty then .error .emptyDocument
  else
    let embeddings := embed (chunks.map Chunk.text)
    match store.add embeddings chunks with
    | .error e => .error (.storeFailure e)
    | .ok s1 => .ok (s1, s1.save disk, ⟨fileName, chunks.length⟩)

/-- Run ingest_path with Python exception semantics: on a raise, neither the
store nor the disk has been touched (in the source, both raises happen
before the add and the save). -/
def IngestionService.ingestRun (chunk_size overlap : Nat)
    (hov : overlap < chunk_size) (embed : List String → Batch)
    (rawText : List Char) (fileName : String) (store : FaissVectorStore)
    (disk : Disk) :
    (FaissVectorStore × Disk) × Option IngestError :=
  match IngestionService.ingest_path chunk_size overlap hov embed rawText
      fileName store disk with
  | .ok (s1, d1, _) => ((s1, d1), none)
  | .error e => ((store, disk), some e)

/-- C8: when chunking the cleaned text yields zero chunks, ingestion fails
with EmptyDocumentError and the vector index is unchanged: no embedding, no
insertion, no persistence (the result does not depend on the embedding
capability, the store and disk are returned untouched, and the total vector
count is preserved). -/
theorem C8_empty_document_aborts (chunk_size overlap : Nat)
    (hov : overlap < chunk_size) (embedA embedB : List String → Batch)
    (rawText : List Char) (fileName : String) (store : FaissVectorStore)
    (disk : Disk)
    (h : chunk_document chunk_size overlap hov (cleanText rawText)
      fileName = []) :
    IngestionService.ingest_path chunk_size overlap hov embedA rawText
        fileName store disk = .error .emptyDocument ∧
    IngestionService.ingestRun chunk_size overlap hov embedA rawText
        fileName store disk = ((store, disk), some .emptyDocument) ∧
    (IngestionService.ingestRun chunk_size overlap hov embedA rawText
        fileName store disk).1.1.ntotal = store.ntotal ∧
    IngestionService.ingest_path chunk_size overlap hov embedA rawText
        fileName store disk =
      IngestionService.ingest_path chunk_size overlap hov embedB rawText
        fileName store disk := by
  have hpath : ∀ embed : List String → Batch,
      IngestionService.ingest_path chunk_size overlap hov embed rawText
        fileName store disk = .error .emptyDocument := by
    intro embed
    unfold IngestionService.ingest_path
    simp [h]
  have hrun : IngestionService.ingestRun chunk_size overlap hov embedA
      rawText fileName store disk = ((store, disk), some .emptyDocument) := by
    unfold IngestionService.ingestRun
    rw [hpath embedA]
  exact ⟨hpath embedA, hrun, by rw [hrun], by rw [hpath embedA, hpath embedB]⟩

/-- C8 witness: ingesting a zero-byte text file (empty raw text) with the
default chunker configuration and an arbitrary embedding capability, against
a store of one vector: EmptyDocumentError, state untouched. -/
theorem C8_empty_document_aborts_witness :
    IngestionService.ingest_path 700 120 (by omega) (fun _ => ⟨1, [[1]]⟩) []
        "empty.txt" { index := some (1, [[1]]), metadata := [⟨"d-0", "t", "d", 0, 1⟩] }
        Disk.empty = .error .emptyDocument ∧
    IngestionService.ingestRun 700 120 (by omega) (fun _ => ⟨1, [[1]]⟩) []
        "empty.txt" { index := some (1, [[1]]), metadata := [⟨"d-0", "t", "d", 0, 1⟩] }
        Disk.empty =
      ((({ index := some (1, [[1]]), metadata := [⟨"d-0", "t", "d", 0, 1⟩] } :
          FaissVectorStore), Disk.empty), some .emptyDocument) := by
  have h := C8_empty_document_aborts 700 120 (by omega) (fun _ => ⟨1, [[1]]⟩)
    (fun _ => ⟨1, [[1]]⟩) [] "empty.txt"
    { index := some (1, [[1]]), metadata := [⟨"d-0", "t", "d", 0, 1⟩] }
    Disk.empty (by simp [cleanText, normalize_whitespace, collapseNewlines,
      collapseNewlinesAux, collapseWhitespaceAux, emitNewlines, pyStrip,
      chunk_document, chunkFrom])
  exact ⟨h.1, h.2.1⟩
